import Mathlib

/-!
Shallow embedding of `src/pages/EquipmentDetails.tsx` from the 1Rental
repository: the equipment-detail page with its data loader, pricing
calculator, booking submitter and gallery rendering.

Modelling conventions:
* A JavaScript number that may be `NaN` is modelled as `Option ℤ`
  (`none` = `NaN`); comparisons involving `NaN` are `false`, as in JS.
* Date strings coming from the date inputs are modelled by `DateInput`:
  the empty string, a non-empty unparseable string, or a string parsing
  to a millisecond timestamp.
* Currency amounts are exact rationals (`ℚ`); `Math.round` is
  `⌊x + 1/2⌋`, which is its semantics on real numbers.
* The remote store is a parameter: `storeOk` tells whether the insert
  succeeds; the handler records the list of insert requests it issues.
-/

namespace OneRental

/-- JS comparison `a < b` on numbers where either side may be NaN
(`none`); any comparison with NaN is false. -/
def jsLt : Option ℤ → Option ℤ → Bool
  | some a, some b => a < b
  | _, _ => false

/-- JS comparison `a >= b` on numbers where either side may be NaN
(`none`); any comparison with NaN is false. -/
def jsGe : Option ℤ → Option ℤ → Bool
  | some a, some b => b ≤ a
  | _, _ => false

/-- JS `Math.round`: round to the nearest integer, ties toward `+∞`,
i.e. `⌊x + 1/2⌋`. -/
def mathRound (x : ℚ) : ℤ := ⌊x + 1 / 2⌋

/-- Round half up, written directly from the spec sentence "Fee rounding
uses standard round-half-up on whole currency units": take the integer
part and round up exactly when the fractional part is at least one
half.  Used only to compare the code's `Math.round` against the spec's
wording. -/
def specRoundHalfUp (x : ℚ) : ℤ :=
  if 1 / 2 ≤ x - ⌊x⌋ then ⌊x⌋ + 1 else ⌊x⌋

/-- A value of a date `<input>`: empty string, non-empty string that
does not parse to a date, or a string parsing to a timestamp (ms since
epoch). -/
inductive DateInput where
  | empty : DateInput
  | invalid : DateInput
  | valid : ℤ → DateInput
deriving DecidableEq

/-- `new Date(s).getTime()`: `none` is NaN (empty or unparseable
string), `some t` the millisecond timestamp. -/
def parseDate : DateInput → Option ℤ
  | .empty => none
  | .invalid => none
  | .valid t => some t

/-- JS string truthiness of a date field: only the empty string is
falsy. -/
def truthyDate : DateInput → Bool
  | .empty => false
  | _ => true

/-- `calculateDuration` (EquipmentDetails.tsx lines 127-132):
`diffTime = Math.abs(end - start)`, result
`Math.ceil(diffTime / (1000*60*60*24))`; NaN (`none`) when either date
does not parse. -/
def calculateDuration (start finish : DateInput) : Option ℤ :=
  match parseDate start, parseDate finish with
  | some s, some e =>
    let diffTime : ℤ := |e - s|
    some ⌈(diffTime : ℚ) / (1000 * 60 * 60 * 24)⌉
  | _, _ => none

/-- The duration state set by `handleDateChange` (lines 134-144): when
both date fields are non-empty it is `calculateDuration`, otherwise 0. -/
def durationAfterDateChange (startDate endDate : DateInput) : Option ℤ :=
  if truthyDate startDate && truthyDate endDate then
    calculateDuration startDate endDate
  else
    some 0

/-- `subtotal = duration * equipment.rate` (lines 69 and 181). -/
def bookingSubtotal (d : ℤ) (rate : ℚ) : ℚ := (d : ℚ) * rate

/-- `serviceFee = Math.round(subtotal * 0.05)` (lines 70 and 182). -/
def bookingServiceFee (subtotal : ℚ) : ℤ := mathRound (subtotal * (5 / 100))

/-- `total = subtotal + serviceFee` (lines 71 and 183). -/
def bookingTotal (d : ℤ) (rate : ℚ) : ℚ :=
  bookingSubtotal d rate + (bookingServiceFee (bookingSubtotal d rate) : ℚ)

/-- The reactive effect recomputing `totalAmount` (lines 67-75):
`if (duration > 0 && equipment?.rate)` compute subtotal + fee, else 0.
`duration` may be NaN (`none`); `rate` is `none` when no equipment is
loaded, and `rate = 0` is falsy, both taking the else branch. -/
def totalAmountEffect (duration : Option ℤ) (rate : Option ℚ) : ℚ :=
  match duration, rate with
  | some d, some r =>
    if 0 < d && r != 0 then
      bookingSubtotal d r + (bookingServiceFee (bookingSubtotal d r) : ℚ)
    else 0
  | _, _ => 0

/-- One row of `equipment_images`. -/
structure ImageRec where
  id : String
  image_url : String
  is_main : Bool
deriving DecidableEq

/-- The sort comparator at lines 110-112:
`(a, b) => b.is_main ? 1 : a.is_main ? -1 : 0`. -/
def imageCompare (a b : ImageRec) : ℤ :=
  if b.is_main then 1 else if a.is_main then -1 else 0

/-- `data.equipment_images?.sort(comparator)`: a stable sort (as
required of `Array.prototype.sort` since ES2019) by the comparator,
modelled by stable insertion sort with relation `comparator a b ≤ 0`. -/
def sortImages (l : List ImageRec) : List ImageRec :=
  l.insertionSort (fun a b => imageCompare a b ≤ 0)

/-- The equipment record stored in component state. -/
structure Equipment where
  id : String
  title : String
  description : String
  type : String
  location : String
  rate : ℚ
  status : String
  user_id : String
  images : List ImageRec
  features : List String
deriving DecidableEq

/-- The raw row returned by the equipment query, before normalization:
`equipment_images` and `features` may be absent. -/
structure RawEquipment where
  id : String
  title : String
  description : String
  type : String
  location : String
  rate : ℚ
  status : String
  user_id : String
  equipment_images : Option (List ImageRec)
  features : Option (List String)
deriving DecidableEq

/-- Normalization in `fetchEquipmentDetails` (lines 108-118): sort the
images so the main image comes first (`?.sort(...) || []`), default a
missing feature list to `[]`, keep the scalar fields. -/
def normalizeEquipment (d : RawEquipment) : Equipment :=
  { id := d.id
    title := d.title
    description := d.description
    type := d.type
    location := d.location
    rate := d.rate
    status := d.status
    user_id := d.user_id
    images :=
      match d.equipment_images with
      | some imgs => sortImages imgs
      | none => []
    features := d.features.getD [] }

/-- State update performed by `fetchEquipmentDetails` (lines 84-125):
on success store the normalized record; on error log it and leave the
equipment state unchanged.  Returns the new equipment state and the
console-error log entries. -/
def fetchEquipmentUpdate (prev : Option Equipment)
    (result : Except String RawEquipment) : Option Equipment × List String :=
  match result with
  | .ok d => (some (normalizeEquipment d), [])
  | .error e => (prev, ["Error fetching equipment: " ++ e])

/-- The three mutually exclusive page renderings (lines 221-243 and the
main return). -/
inductive PageView where
  | loadingView : PageView
  | notFoundView : PageView
  | detailView : Equipment → PageView
deriving DecidableEq

/-- Top-level render choice: loading spinner while `loading`, the
not-found view when no equipment is in state, otherwise the detail
view. -/
def renderPage (loading : Bool) (equipment : Option Equipment) : PageView :=
  if loading then .loadingView
  else
    match equipment with
    | none => .notFoundView
    | some e => .detailView e

/-- The gallery area (lines 255-288): either the image gallery or the
no-images placeholder. -/
inductive GalleryView where
  | gallery : List String → String → GalleryView
  | placeholder : GalleryView
deriving DecidableEq

/-- Gallery rendering: `imagesToShow = images.map(img => img.image_url)`;
show the gallery with the image at `currentImageIndex` when the list is
non-empty, else the placeholder. -/
def renderGallery (images : List ImageRec) (currentImageIndex : ℕ) : GalleryView :=
  let imagesToShow := images.map (fun img => img.image_url)
  if 0 < imagesToShow.length then
    .gallery imagesToShow (imagesToShow.getD currentImageIndex "")
  else .placeholder

/-- The transient booking form state. -/
structure BookingData where
  startDate : DateInput
  endDate : DateInput
  notes : String
deriving DecidableEq

/-- The row sent to `supabase.from(bookings).insert` (lines 187-199).
Amounts are `Option` because they are NaN when `duration` is NaN. -/
structure BookingRecord where
  equipment_id : String
  user_id : String
  start_date : DateInput
  end_date : DateInput
  days : Option ℤ
  rate_per_day : ℚ
  subtotal : Option ℚ
  service_fee : Option ℚ
  total_amount : Option ℚ
  status : String
  notes : Option String
deriving DecidableEq

/-- Which exit path `handleBookingSubmit` took. -/
inductive SubmitOutcome where
  | missingContext : SubmitOutcome
  | ownEquipment : SubmitOutcome
  | pastStart : SubmitOutcome
  | invalidRange : SubmitOutcome
  | shortDuration : SubmitOutcome
  | success : SubmitOutcome
  | storeFailure : SubmitOutcome
deriving DecidableEq

/-- Everything `handleBookingSubmit` reads: the auth store user id, the
equipment state, the form state, the duration state, today's midnight
timestamp, whether the store insert succeeds, and the flags it may
leave unchanged. -/
structure SubmitInput where
  user : Option String
  equipment : Option Equipment
  bookingData : BookingData
  duration : Option ℤ
  today : ℤ
  storeOk : Bool
  submitting : Bool
  showBookingModal : Bool
deriving DecidableEq

/-- Observable effects of one run of `handleBookingSubmit`. -/
structure SubmitOutput where
  outcome : SubmitOutcome
  inserts : List BookingRecord
  alert : Option String
  submitting : Bool
  showBookingModal : Bool
  navigatedTo : Option String
deriving DecidableEq

/-- `handleBookingSubmit` (lines 146-216). Checks in source order:
user/equipment present, self-booking, `startDate < today`,
`startDate >= endDate`, `duration < 1`; then recompute the amounts from
the current duration and rate and issue one insert; the submitting flag
is set only around the insert and cleared in `finally`. -/
def handleBookingSubmit (inp : SubmitInput) : SubmitOutput :=
  match inp.user, inp.equipment with
  | some user, some equipment =>
    if user = equipment.user_id then
      { outcome := .ownEquipment
        inserts := []
        alert := some "You cannot book your own equipment"
        submitting := inp.submitting
        showBookingModal := inp.showBookingModal
        navigatedTo := none }
    else
      let startDate := parseDate inp.bookingData.startDate
      let endDate := parseDate inp.bookingData.endDate
      if jsLt startDate (some inp.today) then
        { outcome := .pastStart
          inserts := []
          alert := some "Start date cannot be in the past"
          submitting := inp.submitting
          showBookingModal := inp.showBookingModal
          navigatedTo := none }
      else if jsGe startDate endDate then
        { outcome := .invalidRange
          inserts := []
          alert := some "End date must be after start date"
          submitting := inp.submitting
          showBookingModal := inp.showBookingModal
          navigatedTo := none }
      else if jsLt inp.duration (some 1) then
        { outcome := .shortDuration
          inserts := []
          alert := some "Minimum booking duration is 1 day"
          submitting := inp.submitting
          showBookingModal := inp.showBookingModal
          navigatedTo := none }
      else
        let subtotal := inp.duration.map (fun d => bookingSubtotal d equipment.rate)
        let serviceFee := subtotal.map (fun s => (bookingServiceFee s : ℚ))
        let total := subtotal.map (fun s => s + (bookingServiceFee s : ℚ))
        let record : BookingRecord :=
          { equipment_id := equipment.id
            user_id := user
            start_date := inp.bookingData.startDate
            end_date := inp.bookingData.endDate
            days := inp.duration
            rate_per_day := equipment.rate
            subtotal := subtotal
            service_fee := serviceFee
            total_amount := total
            status := "pending"
            notes := if inp.bookingData.notes = "" then none else some inp.bookingData.notes }
        if inp.storeOk then
          { outcome := .success
            inserts := [record]
            alert := some "Booking request sent successfully! The owner will review and respond."
            submitting := false
            showBookingModal := false
            navigatedTo := some "/dashboard" }
        else
          { outcome := .storeFailure
            inserts := [record]
            alert := some "Failed to submit booking request. Please try again."
            submitting := false
            showBookingModal := inp.showBookingModal
            navigatedTo := none }
  | _, _ =>
    { outcome := .missingContext
      inserts := []
      alert := none
      submitting := inp.submitting
      showBookingModal := inp.showBookingModal
      navigatedTo := none }

/-- The Cancel button (lines 497-504): `disabled={submitting}`. -/
def cancelDisabled (submitting : Bool) : Bool := submitting

/-- The submit button (lines 505-511):
`disabled={submitting || duration < 1}` with JS `<` on a possibly-NaN
duration. -/
def submitDisabled (submitting : Bool) (duration : Option ℤ) : Bool :=
  submitting || jsLt duration (some 1)

/-- The submit button label (line 510). -/
def submitLabel (submitting : Bool) : String :=
  if submitting then "Submitting..." else "Request Booking"

/-- The price-breakdown block (line 462) is rendered iff `duration > 0`. -/
def priceBreakdownShown (duration : Option ℤ) : Bool :=
  jsLt (some 0) duration

/-- The non-owner Book Now button (lines 347-353):
`disabled={equipment.status !== 'available'}`. -/
def bookNowDisabled (status : String) : Bool := status != "available"

/-- Whether the booking modal can be opened: the owner only sees a
permanently disabled button (lines 335-345), a non-owner can click
Book Now exactly when it is enabled. -/
def canOpenBookingModal (isOwner : Bool) (status : String) : Bool :=
  !isOwner && !bookNowDisabled status

/-! ## Sample data used by witnesses -/

/-- A non-main image. -/
def sideImage : ImageRec := { id := "img1", image_url := "u1", is_main := false }

/-- The main-flagged image. -/
def mainImage : ImageRec := { id := "img2", image_url := "u2", is_main := true }

/-- A concrete raw equipment row as returned by the query. -/
def sampleRaw : RawEquipment :=
  { id := "eq1"
    title := "Excavator"
    description := "Mid-size excavator"
    type := "heavy"
    location := "Cape Town"
    rate := 100
    status := "available"
    user_id := "alice"
    equipment_images := some [sideImage, mainImage]
    features := none }

/-- A concrete equipment record owned by user alice. -/
def aliceEquipment : Equipment :=
  { id := "eq1"
    title := "Excavator"
    description := "Mid-size excavator"
    type := "heavy"
    location := "Cape Town"
    rate := 100
    status := "available"
    user_id := "alice"
    images := []
    features := [] }

/-- A three-day booking draft starting at epoch day 0. -/
def baseBookingData : BookingData :=
  { startDate := .valid 0, endDate := .valid (3 * 86400000), notes := "" }

/-- Submission attempt by the owner herself. -/
def ownerSubmitInput : SubmitInput :=
  { user := some "alice"
    equipment := some aliceEquipment
    bookingData := baseBookingData
    duration := some 3
    today := 0
    storeOk := true
    submitting := false
    showBookingModal := true }

/-- The same submission attempt made by a non-owner. -/
def renterSubmitInput : SubmitInput := { ownerSubmitInput with user := some "bob" }

/-! ## Helper lemmas -/

/-- The JS `Math.round` used by the fee computation agrees with the
round-half-up rule stated in the spec, on every rational. -/
theorem mathRound_eq_specRoundHalfUp (x : ℚ) : mathRound x = specRoundHalfUp x := by
  unfold mathRound specRoundHalfUp
  have hle := Int.floor_le x
  have hlt := Int.lt_floor_add_one x
  by_cases h : 1 / 2 ≤ x - ⌊x⌋
  · rw [if_pos h, Int.floor_eq_iff]
    push_cast
    constructor <;> linarith
  · rw [if_neg h, Int.floor_eq_iff]
    constructor <;> linarith [lt_of_not_le h]

/-! ## Claims -/

/-- C1: for every duration d ≥ 1 and daily rate r ≥ 0, the pricing
computation (the reactive total-amount effect and the recomputation in
the submit handler, both embedded through `bookingSubtotal`,
`bookingServiceFee` and `bookingTotal`) yields subtotal = d·r, service
fee = round-half-up(0.05·subtotal) and total = subtotal + fee; in
particular rate 100 and duration 3 give subtotal 300, fee 15 and
total 315. -/
theorem pricing_totals_correct (d : ℤ) (r : ℚ) (hd : 1 ≤ d) (hr : 0 ≤ r) :
    bookingSubtotal d r = (d : ℚ) * r
    ∧ bookingServiceFee (bookingSubtotal d r) = specRoundHalfUp ((5 / 100) * ((d : ℚ) * r))
    ∧ bookingTotal d r = bookingSubtotal d r + (bookingServiceFee (bookingSubtotal d r) : ℚ)
    ∧ totalAmountEffect (some d) (some r) = bookingTotal d r
    ∧ bookingSubtotal 3 100 = 300
    ∧ bookingServiceFee (bookingSubtotal 3 100) = 15
    ∧ bookingTotal 3 100 = 315 := by
  have hfee : bookingServiceFee (bookingSubtotal 3 100) = 15 := by
    unfold bookingServiceFee bookingSubtotal mathRound
    norm_num [Int.floor_eq_iff]
  refine ⟨rfl, ?_, rfl, ?_, ?_, hfee, ?_⟩
  · unfold bookingServiceFee
    rw [mathRound_eq_specRoundHalfUp]
    congr 1
    unfold bookingSubtotal
    ring
  · by_cases hr0 : r = 0
    · subst hr0
      have hfee0 : bookingServiceFee 0 = 0 := by
        unfold bookingServiceFee mathRound
        norm_num [Int.floor_eq_iff]
      simp [totalAmountEffect, bookingTotal, hfee0, bookingSubtotal]
    · have hd0 : 0 < d := by omega
      simp [totalAmountEffect, bookingTotal, hd0, hr0]
  · norm_num [bookingSubtotal]
  · unfold bookingTotal
    rw [hfee]
    norm_num [bookingSubtotal]

/-- Witness for C1 at duration 3 and rate 100. -/
theorem pricing_totals_correct_witness :
    (1 : ℤ) ≤ 3 ∧ (0 : ℚ) ≤ 100 ∧ bookingTotal 3 100 = 315 :=
  ⟨by norm_num, by norm_num,
    (pricing_totals_correct 3 100 (by norm_num) (by norm_num)).2.2.2.2.2.2⟩

/-- C2: for parseable date pairs the computed duration is the ceiling
of the absolute millisecond difference divided by 86,400,000, and when
either date field is empty the duration is set to 0. -/
theorem duration_ceiling_correct :
    (∀ a b : ℤ, calculateDuration (.valid a) (.valid b)
        = some ⌈((|b - a| : ℤ) : ℚ) / 86400000⌉)
    ∧ (∀ startDate endDate : DateInput,
        startDate = .empty ∨ endDate = .empty →
        durationAfterDateChange startDate endDate = some 0) := by
  constructor
  · intro a b
    simp only [calculateDuration, parseDate]
    norm_num
  · rintro s f (rfl | rfl) <;> simp [durationAfterDateChange, truthyDate]

/-- Witness for C2: an empty start date yields duration 0, and a
25-hour span yields 2 days. -/
theorem duration_ceiling_correct_witness :
    durationAfterDateChange .empty (.valid 5) = some 0
    ∧ calculateDuration (.valid 0) (.valid 90000000)
        = some ⌈((|(90000000 : ℤ) - 0| : ℤ) : ℚ) / 86400000⌉ :=
  ⟨duration_ceiling_correct.2 .empty (.valid 5) (Or.inl rfl),
    duration_ceiling_correct.1 0 90000000⟩

/-- C3: when the current user owns the equipment, or the start date is
before today, or the start date is not strictly before the end date, or
the duration is below 1, the submit handler performs no insert; the
checks are applied in source order and each failure is surfaced through
its own alert message. -/
theorem submit_validation_order (inp : SubmitInput) (u : String) (e : Equipment)
    (hu : inp.user = some u) (he : inp.equipment = some e)
    (h : u = e.user_id
      ∨ jsLt (parseDate inp.bookingData.startDate) (some inp.today) = true
      ∨ jsGe (parseDate inp.bookingData.startDate) (parseDate inp.bookingData.endDate) = true
      ∨ jsLt inp.duration (some 1) = true) :
    (handleBookingSubmit inp).inserts = []
    ∧ (handleBookingSubmit inp).outcome =
        (if u = e.user_id then .ownEquipment
         else if jsLt (parseDate inp.bookingData.startDate) (some inp.today) then .pastStart
         else if jsGe (parseDate inp.bookingData.startDate)
             (parseDate inp.bookingData.endDate) then .invalidRange
         else .shortDuration)
    ∧ (handleBookingSubmit inp).alert =
        some (if u = e.user_id then "You cannot book your own equipment"
         else if jsLt (parseDate inp.bookingData.startDate) (some inp.today) then
           "Start date cannot be in the past"
         else if jsGe (parseDate inp.bookingData.startDate)
             (parseDate inp.bookingData.endDate) then "End date must be after start date"
         else "Minimum booking duration is 1 day") := by
  by_cases h1 : u = e.user_id
  · simp [handleBookingSubmit, hu, he, h1]
  · by_cases h2 : jsLt (parseDate inp.bookingData.startDate) (some inp.today) = true
    · simp [handleBookingSubmit, hu, he, h1, h2]
    · by_cases h3 : jsGe (parseDate inp.bookingData.startDate)
          (parseDate inp.bookingData.endDate) = true
      · simp [handleBookingSubmit, hu, he, h1, h2, h3]
      · have h4 : jsLt inp.duration (some 1) = true := by tauto
        simp [handleBookingSubmit, hu, he, h1, h2, h3, h4]

/-- Witness for C3: the owner tries to book her own equipment; nothing
is inserted and the self-booking message is shown. -/
theorem submit_validation_order_witness :
    (handleBookingSubmit ownerSubmitInput).inserts = []
    ∧ (handleBookingSubmit ownerSubmitInput).alert
        = some "You cannot book your own equipment" := by
  have h := submit_validation_order ownerSubmitInput "alice" aliceEquipment rfl rfl
    (Or.inl rfl)
  exact ⟨h.1, by rw [h.2.2]; rfl⟩

/-- C4: a submission that passes all validation checks issues exactly
one insert whose status is "pending", whose rate-per-day is the
equipment's current rate, whose subtotal, service fee and total are
recomputed from that rate and the current duration, and whose notes are
null when the notes text is blank. -/
theorem submit_insert_shape (inp : SubmitInput) (u : String) (e : Equipment)
    (hu : inp.user = some u) (he : inp.equipment = some e)
    (h1 : ¬u = e.user_id)
    (h2 : jsLt (parseDate inp.bookingData.startDate) (some inp.today) = false)
    (h3 : jsGe (parseDate inp.bookingData.startDate)
        (parseDate inp.bookingData.endDate) = false)
    (h4 : jsLt inp.duration (some 1) = false) :
    (handleBookingSubmit inp).inserts =
      [{ equipment_id := e.id
         user_id := u
         start_date := inp.bookingData.startDate
         end_date := inp.bookingData.endDate
         days := inp.duration
         rate_per_day := e.rate
         subtotal := inp.duration.map (fun d => bookingSubtotal d e.rate)
         service_fee := inp.duration.map
           (fun d => (bookingServiceFee (bookingSubtotal d e.rate) : ℚ))
         total_amount := inp.duration.map
           (fun d => bookingSubtotal d e.rate + (bookingServiceFee (bookingSubtotal d e.rate) : ℚ))
         status := "pending"
         notes := if inp.bookingData.notes = "" then none else some inp.bookingData.notes }] := by
  cases hst : inp.storeOk <;>
    simp [handleBookingSubmit, hu, he, h1, h2, h3, h4, hst, Option.map_map,
      Function.comp_def]

/-- Witness for C4: the non-owner submission of the three-day booking
issues the single pending insert at rate 100. -/
theorem submit_insert_shape_witness :
    (handleBookingSubmit renterSubmitInput).inserts =
      [{ equipment_id := aliceEquipment.id
         user_id := "bob"
         start_date := renterSubmitInput.bookingData.startDate
         end_date := renterSubmitInput.bookingData.endDate
         days := renterSubmitInput.duration
         rate_per_day := aliceEquipment.rate
         subtotal := renterSubmitInput.duration.map (fun d => bookingSubtotal d aliceEquipment.rate)
         service_fee := renterSubmitInput.duration.map
           (fun d => (bookingServiceFee (bookingSubtotal d aliceEquipment.rate) : ℚ))
         total_amount := renterSubmitInput.duration.map
           (fun d => bookingSubtotal d aliceEquipment.rate
             + (bookingServiceFee (bookingSubtotal d aliceEquipment.rate) : ℚ))
         status := "pending"
         notes := if renterSubmitInput.bookingData.notes = "" then none
           else some renterSubmitInput.bookingData.notes }] :=
  submit_insert_shape renterSubmitInput "bob" aliceEquipment rfl rfl
    (by decide) rfl rfl rfl

/-- Inserting any image in front of a run of non-main images keeps it
in front: the comparator returns at most 0 against a non-main right
operand. -/
theorem orderedInsert_all_not_main (x : ImageRec) (l : List ImageRec)
    (h : ∀ b ∈ l, b.is_main = false) :
    List.orderedInsert (fun a b => imageCompare a b ≤ 0) x l = x :: l := by
  cases l with
  | nil => rfl
  | cons b t =>
    have hb : b.is_main = false := h b (by simp)
    rw [List.orderedInsert, if_pos]
    simp only [imageCompare, hb, if_false, Bool.false_eq_true]
    split <;> norm_num

/-- Correctness of the image comparator sort: with at most one
main-flagged image the stable sort puts the main image first and keeps
the relative order of the remaining images. -/
theorem sortImages_eq (l : List ImageRec)
    (h : l.countP (fun i => i.is_main) ≤ 1) :
    sortImages l = l.filter (fun i => i.is_main) ++ l.filter (fun i => !i.is_main) := by
  induction l with
  | nil => rfl
  | cons x t ih =>
    have hcons : (x :: t).countP (fun i => i.is_main)
        = t.countP (fun i => i.is_main) + if x.is_main then 1 else 0 :=
      List.countP_cons _ _ _
    have ht : t.countP (fun i => i.is_main) ≤ 1 := by
      rw [hcons] at h
      omega
    have hsort : sortImages (x :: t)
        = List.orderedInsert (fun a b => imageCompare a b ≤ 0) x (sortImages t) := rfl
    cases hx : x.is_main with
    | true =>
      have h0 : t.countP (fun i => i.is_main) = 0 := by
        rw [hcons, hx] at h
        simpa using h
      have hall : ∀ b ∈ t, b.is_main = false := by
        intro b hb
        have := List.countP_eq_zero.1 h0 b hb
        simpa using this
      have hfm : t.filter (fun i => i.is_main) = [] := by
        rw [List.filter_eq_nil_iff]
        intro b hb
        simp [hall b hb]
      have hfn : t.filter (fun i => !i.is_main) = t := by
        rw [List.filter_eq_self]
        intro b hb
        simp [hall b hb]
      have hsorted : sortImages t = t := by
        rw [ih ht, hfm, hfn, List.nil_append]
      rw [hsort, hsorted, orderedInsert_all_not_main x t hall]
      simp [List.filter_cons, hx, hfm, hfn]
    | false =>
      rw [hsort, ih ht]
      have hrest : ∀ b ∈ t.filter (fun i => !i.is_main), b.is_main = false := by
        intro b hb
        have := (List.mem_filter.1 hb).2
        simpa using this
      cases hf : t.filter (fun i => i.is_main) with
      | nil =>
        rw [List.nil_append, orderedInsert_all_not_main x _ hrest]
        simp [List.filter_cons, hx, hf]
      | cons m ms =>
        have hm : m.is_main = true := by
          have hmem : m ∈ t.filter (fun i => i.is_main) := by
            rw [hf]
            simp
          have := (List.mem_filter.1 hmem).2
          simpa using this
        have hms : ms = [] := by
          have hlen : (m :: ms).length ≤ 1 := by
            rw [← hf, ← List.countP_eq_length_filter]
            exact ht
          simp only [List.length_cons] at hlen
          exact List.length_eq_zero.1 (by omega)
        subst hms
        rw [List.singleton_append, List.orderedInsert, if_neg,
          orderedInsert_all_not_main x _ hrest]
        · simp [List.filter_cons, hx, hf]
        · simp [imageCompare, hm]

/-- C5: after the loader's normalization, the displayed image sequence
places the (at most one) main-flagged image first and keeps the other
images in their original order; an empty image list renders the
placeholder instead of the gallery. -/
theorem images_main_first (imgs : List ImageRec) (raw : RawEquipment)
    (currentImageIndex : ℕ)
    (hraw : raw.equipment_images = some imgs)
    (h : imgs.countP (fun i => i.is_main) ≤ 1) :
    (normalizeEquipment raw).images
      = imgs.filter (fun i => i.is_main) ++ imgs.filter (fun i => !i.is_main)
    ∧ renderGallery [] currentImageIndex = .placeholder := by
  constructor
  · simp only [normalizeEquipment, hraw]
    exact sortImages_eq imgs h
  · rfl

/-- Witness for C5: the sample fetch result with the main image listed
second displays it first. -/
theorem images_main_first_witness :
    (normalizeEquipment sampleRaw).images
      = [sideImage, mainImage].filter (fun i => i.is_main)
        ++ [sideImage, mainImage].filter (fun i => !i.is_main)
    ∧ renderGallery [] 0 = .placeholder :=
  images_main_first [sideImage, mainImage] sampleRaw 0 rfl (by decide)

/-- C6: whenever the duration is zero or unset (NaN) or the equipment
rate is absent, the reactive effect resets the total amount to zero;
equal start and end dates yield duration 0, with the submit button
disabled and no price breakdown shown. -/
theorem zero_duration_resets_totals :
    (∀ rate : Option ℚ, totalAmountEffect (some 0) rate = 0)
    ∧ (∀ rate : Option ℚ, totalAmountEffect none rate = 0)
    ∧ (∀ duration : Option ℤ, totalAmountEffect duration none = 0)
    ∧ (∀ t : ℤ, durationAfterDateChange (.valid t) (.valid t) = some 0)
    ∧ submitDisabled false (some 0) = true
    ∧ priceBreakdownShown (some 0) = false := by
  refine ⟨?_, ?_, ?_, ?_, rfl, rfl⟩
  · intro rate
    cases rate <;> simp [totalAmountEffect]
  · intro rate
    cases rate <;> rfl
  · intro duration
    cases duration <;> rfl
  · intro t
    simp [durationAfterDateChange, truthyDate, calculateDuration, parseDate]

/-- C7: a failing fetch logs the error and leaves the equipment state
empty, so once loading finishes the page renders the not-found view;
the render function maps each state to exactly one of the loading,
not-found and detail views, so not-found and detail are never shown
together. -/
theorem fetch_failure_not_found :
    (∀ msg : String,
      fetchEquipmentUpdate none (.error msg)
        = (none, ["Error fetching equipment: " ++ msg]))
    ∧ (∀ eqState : Option Equipment,
        renderPage false eqState = .notFoundView ↔ eqState = none)
    ∧ (∀ (eqState : Option Equipment) (e : Equipment),
        renderPage false eqState = .detailView e ↔ eqState = some e)
    ∧ (∀ eqState : Option Equipment, renderPage true eqState = .loadingView) := by
  refine ⟨fun msg => rfl, ?_, ?_, fun _ => rfl⟩
  · intro s
    cases s <;> simp [renderPage]
  · intro s e
    cases s <;> simp [renderPage]

/-- Witness for C7: a concrete failed fetch leaves the state empty,
logs the message, and the page then shows the not-found view only. -/
theorem fetch_failure_not_found_witness :
    fetchEquipmentUpdate none (.error "boom")
      = (none, ["Error fetching equipment: " ++ "boom"])
    ∧ renderPage false none = .notFoundView
    ∧ renderPage false none ≠ .detailView aliceEquipment :=
  ⟨fetch_failure_not_found.1 "boom",
    (fetch_failure_not_found.2.1 none).2 rfl,
    fun hdet => by
      have := (fetch_failure_not_found.2.2.1 none aliceEquipment).1 hdet
      exact Option.noConfusion this⟩

/-- C8: with the submitting flag set, both modal buttons are disabled
and the submit label shows the working state; every exit path of the
submit handler leaves the flag false when it was false on entry. -/
theorem submitting_flag_cleared :
    (∀ inp : SubmitInput,
      (handleBookingSubmit { inp with submitting := false }).submitting = false)
    ∧ cancelDisabled true = true
    ∧ (∀ duration : Option ℤ, submitDisabled true duration = true)
    ∧ submitLabel true = "Submitting..." := by
  refine ⟨?_, rfl, fun _ => rfl, rfl⟩
  intro inp
  obtain ⟨user, equipment, bd, dur, today, storeOk, sub, modal⟩ := inp
  cases user <;> cases equipment <;> (try rfl)
  simp only [handleBookingSubmit]
  split_ifs <;> rfl

/-- C9: for parseable dates with the start strictly before the end,
`calculateDuration` returns at least 1, so when the duration state was
computed from those dates the minimum-duration branch of the submit
handler can never be taken. -/
theorem positive_range_duration_min_one (a b : ℤ) (hab : a < b) :
    (∃ n : ℤ, calculateDuration (.valid a) (.valid b) = some n ∧ 1 ≤ n)
    ∧ (∀ inp : SubmitInput,
        inp.bookingData.startDate = .valid a →
        inp.bookingData.endDate = .valid b →
        inp.duration = durationAfterDateChange (.valid a) (.valid b) →
        (handleBookingSubmit inp).outcome ≠ .shortDuration) := by
  have hpos : (0 : ℚ) < ((|b - a| : ℤ) : ℚ) / (1000 * 60 * 60 * 24) := by
    apply div_pos
    · have : (0 : ℤ) < |b - a| := abs_pos.2 (sub_ne_zero.2 (ne_of_gt hab))
      exact_mod_cast this
    · norm_num
  have hceil : 1 ≤ ⌈((|b - a| : ℤ) : ℚ) / (1000 * 60 * 60 * 24)⌉ := Int.ceil_pos.2 hpos
  constructor
  · exact ⟨_, rfl, hceil⟩
  · intro inp hs he hd
    have hdur : inp.duration
        = some ⌈((|b - a| : ℤ) : ℚ) / (1000 * 60 * 60 * 24)⌉ := by
      rw [hd]
      rfl
    have hjs : jsLt inp.duration (some 1) = false := by
      rw [hdur]
      simp only [jsLt, decide_eq_false_iff_not, not_lt]
      omega
    intro hout
    revert hout
    unfold handleBookingSubmit
    cases hu : inp.user <;> cases heq : inp.equipment <;> simp
    split_ifs <;> simp_all [jsLt]

/-- Witness for C9: a one-day span starting at the epoch yields a
duration of at least one day. -/
theorem positive_range_duration_min_one_witness :
    ∃ n : ℤ, calculateDuration (.valid 0) (.valid 86400000) = some n ∧ 1 ≤ n :=
  (positive_range_duration_min_one 0 86400000 (by norm_num)).1

/-- C10: for a non-owner the Book Now control is disabled whenever the
equipment status is not "available", so the booking modal can only be
opened for available equipment, and the submit handler's behaviour does
not depend on the status field at all. -/
theorem book_now_gating :
    (∀ status : String, status ≠ "available" → bookNowDisabled status = true)
    ∧ (∀ status : String, status ≠ "available" → canOpenBookingModal false status = false)
    ∧ (∀ (isOwner : Bool) (status : String),
        canOpenBookingModal isOwner status = true → status = "available")
    ∧ (∀ (inp : SubmitInput) (e : Equipment) (s₁ s₂ : String),
        handleBookingSubmit { inp with equipment := some { e with status := s₁ } }
          = handleBookingSubmit { inp with equipment := some { e with status := s₂ } }) := by
  refine ⟨?_, ?_, ?_, ?_⟩
  · intro s hs
    simp [bookNowDisabled, hs]
  · intro s hs
    simp [canOpenBookingModal, bookNowDisabled, hs]
  · intro o s h
    by_cases hs : s = "available"
    · exact hs
    · simp [canOpenBookingModal, bookNowDisabled, hs] at h
  · intro inp e s₁ s₂
    obtain ⟨user, equipment, bd, dur, today, storeOk, sub, modal⟩ := inp
    cases user <;> rfl

/-- Witness for C10: a rented status keeps the Book Now control
disabled for a non-owner. -/
theorem book_now_gating_witness :
    bookNowDisabled "rented" = true ∧ canOpenBookingModal false "rented" = false :=
  ⟨book_now_gating.1 "rented" (by decide), book_now_gating.2.1 "rented" (by decide)⟩

end OneRental
